import Mathlib

/-!
# dylo: a header-only shim over the host dynamic loader

A shallow embedding of `src/dylo.h` (the POSIX backend, plus the Windows
backend's `dylo_symbol`) and of the consumer `src/test/loader.c`.

* A byte is a `Nat`; the shim only copies bytes, it never computes with them.
* A `const char*` argument is an `Option (List Nat)`: `none` is `NULL`, and
  `some bs` is the memory found at the pointer. The string it denotes is
  `cstr bs`, the bytes before the first NUL (or all of `bs` when it holds none).
* A `void*` / `Dylo_Handle` is a `Nat`, with `0` for `NULL`.
* The host loader (`dlopen`, `dlsym`, `dlclose`, `dlerror`) is external: it is a
  record of state-passing functions over an arbitrary host state.
* The global `dylo_last_error` array is a `List Nat`; a block written at its
  start replaces the bytes it covers (`store`).
-/

namespace Dylo

/-- The bytes of an ASCII string literal of the source. -/
def bytes (s : String) : List Nat := s.toList.map Char.toNat

/-- The string found at a `const char*`: the bytes before the first NUL. -/
def cstr : List Nat → List Nat
  | [] => []
  | b :: p => if b = 0 then [] else b :: cstr p

/-- The macro `DYLO_MAX_ERROR_SIZE` (its default value). -/
def DYLO_MAX_ERROR_SIZE : Nat := 512

/-- An argument of a `printf`-style call: a `char*` for `%s`, an
`unsigned long` for `%lu`. -/
inductive Arg where
  | str (p : List Nat)
  | ulong (n : Nat)

/-- The decimal digits of `n`, as bytes. -/
def decimal (n : Nat) : List Nat := (Nat.toDigits 10 n).map Char.toNat

/-- The text a `printf`-style format produces: `%s` (bytes 37, 115) is replaced
by the string at the next argument, `%lu` (bytes 37, 108, 117) by the decimal
digits of the next argument, every other byte is copied. Only the conversions
the source uses are covered. -/
def format : List Nat → List Arg → List Nat
  | [], _ => []
  | 37 :: 115 :: rest, Arg.str p :: args => cstr p ++ format rest args
  | 37 :: 108 :: 117 :: rest, Arg.ulong n :: args => decimal n ++ format rest args
  | c :: rest, args => c :: format rest args

/-- The block `strncpy(dst, src, n)` writes at `dst`: exactly `n` bytes, the
string at `src` cut to `n` bytes and padded with NULs up to `n`. -/
def strncpy_block (src : List Nat) (n : Nat) : List Nat :=
  (cstr src).take n ++ List.replicate (n - (cstr src).length) 0

/-- The block `snprintf(dst, size, ...)` writes at `dst` when the formatted
text is `text`: nothing when `size` is 0, otherwise the text cut to `size - 1`
bytes and a terminating NUL. -/
def snprintf_block (size : Nat) (text : List Nat) : List Nat :=
  if size = 0 then [] else text.take (size - 1) ++ [0]

/-- Writing `block` at index 0 of the array `a`: the bytes of `a` it covers
are replaced. A block longer than the array makes the result longer than the
array, which is how a write past the end of the array shows. -/
def store (a block : List Nat) : List Nat := block ++ a.drop block.length

/-- The host loader of the POSIX backend (`dlfcn.h`), over a host state `σ`.
`dlopen` is always called with `RTLD_LAZY`, so the flag is not an argument.
`invoke` is a call through a resolved address with two `int32_t` arguments, as
the consumer `loader.c` makes one. -/
structure Host (σ : Type) where
  dlerror : σ → Option (List Nat) × σ
  dlopen : List Nat → σ → Nat × σ
  dlsym : Nat → List Nat → σ → Nat × σ
  dlclose : Nat → σ → Int × σ
  invoke : Nat → Int → Int → σ → Int × σ

/-- The state a shim call runs in: the global array `dylo_last_error` and the
state of the host loader. -/
structure World (σ : Type) where
  dylo_last_error : List Nat
  host : σ

/-- The initial state of the program: `dylo_last_error` is
`DYLO_MAX_ERROR_SIZE` NUL bytes (`= {0}`). -/
def World.init {σ : Type} (s : σ) : World σ :=
  ⟨List.replicate DYLO_MAX_ERROR_SIZE 0, s⟩

/-- `dylo_last_error[0] = 0`. -/
def dylo_clear_error {σ : Type} (w : World σ) : World σ :=
  { w with dylo_last_error := w.dylo_last_error.set 0 0 }

/-- `dylo_last_error[0] ? dylo_last_error : NULL`; the pointer returned is
given as the string found in the array. The state is returned as it was. -/
def dylo_error {σ : Type} (w : World σ) : Option (List Nat) × World σ :=
  (if w.dylo_last_error.getD 0 0 ≠ 0 then some (cstr w.dylo_last_error) else none, w)

/-- `strncpy(dylo_last_error, src, n)`. -/
def strncpy {σ : Type} (w : World σ) (src : List Nat) (n : Nat) : World σ :=
  { w with dylo_last_error := store w.dylo_last_error (strncpy_block src n) }

/-- `snprintf(dylo_last_error, size, fmt, args...)`; the value `snprintf`
returns is not used by the source. -/
def snprintf {σ : Type} (w : World σ) (size : Nat) (fmt : List Nat) (args : List Arg) :
    World σ :=
  { w with dylo_last_error := store w.dylo_last_error (snprintf_block size (format fmt args)) }

/-- `dylo_open` of the POSIX backend. -/
def dylo_open {σ : Type} (H : Host σ) (filename : Option (List Nat)) (w : World σ) :
    Nat × World σ :=
  let w := dylo_clear_error w
  match filename with
  | none => (0, strncpy w (bytes "Filename cannot be NULL") (DYLO_MAX_ERROR_SIZE - 1))
  | some filename =>
    let w := { w with host := (H.dlerror w.host).2 }
    let r := H.dlopen filename w.host
    let handle := r.1
    let w := { w with host := r.2 }
    if handle = 0 then
      let r := H.dlerror w.host
      let w := { w with host := r.2 }
      match r.1 with
      | some error =>
        (handle, snprintf w DYLO_MAX_ERROR_SIZE (bytes "Failed to load library '%s': %s")
          [Arg.str filename, Arg.str error])
      | none =>
        (handle, snprintf w DYLO_MAX_ERROR_SIZE
          (bytes "Failed to load library '%s': Unknown error") [Arg.str filename])
    else (handle, w)

/-- `dylo_symbol` of the POSIX backend. -/
def dylo_symbol {σ : Type} (H : Host σ) (handle : Nat) (symbol : Option (List Nat))
    (w : World σ) : Nat × World σ :=
  let w := dylo_clear_error w
  if handle = 0 then
    (0, strncpy w (bytes "Symbol name cannot be NULL") (DYLO_MAX_ERROR_SIZE - 1))
  else
    match symbol with
    | none => (0, strncpy w (bytes "Symbol name cannot be NULL") (DYLO_MAX_ERROR_SIZE - 1))
    | some symbol =>
      let w := { w with host := (H.dlerror w.host).2 }
      let r := H.dlsym handle symbol w.host
      let sym := r.1
      let w := { w with host := r.2 }
      let r := H.dlerror w.host
      let w := { w with host := r.2 }
      match r.1 with
      | some error =>
        (0, snprintf w DYLO_MAX_ERROR_SIZE (bytes "Failed to find symbol '%s': %s")
          [Arg.str symbol, Arg.str error])
      | none => (sym, w)

/-- `dylo_close` of the POSIX backend. -/
def dylo_close {σ : Type} (H : Host σ) (handle : Nat) (w : World σ) : Int × World σ :=
  let w := dylo_clear_error w
  if handle = 0 then
    (-1, strncpy w (bytes "Handle cannot be NULL") (DYLO_MAX_ERROR_SIZE - 1))
  else
    let r := H.dlclose handle w.host
    let result := r.1
    let w := { w with host := r.2 }
    if result ≠ 0 then
      let r := H.dlerror w.host
      let w := { w with host := r.2 }
      match r.1 with
      | some error =>
        (result, snprintf w DYLO_MAX_ERROR_SIZE (bytes "Failed to close library: %s")
          [Arg.str error])
      | none =>
        (result, strncpy w (bytes "Failed to close library: Unknown error")
          (DYLO_MAX_ERROR_SIZE - 1))
    else (result, w)

/-- The host facilities the Windows backend's `dylo_symbol` calls. -/
structure Windows.Host (σ : Type) where
  GetProcAddress : Nat → List Nat → σ → Nat × σ
  GetLastError : σ → Nat × σ

/-- `dylo_symbol` of the Windows backend. The size it passes to `snprintf` is
the name `DYLO_MAX_ERROR`, which the header does not define; it is a parameter
here. -/
def Windows.dylo_symbol {σ : Type} (H : Windows.Host σ) (DYLO_MAX_ERROR : Nat) (handle : Nat)
    (symbol : Option (List Nat)) (w : World σ) : Nat × World σ :=
  let w := dylo_clear_error w
  if handle = 0 then
    (0, strncpy w (bytes "Handle cannot be NULL") (DYLO_MAX_ERROR_SIZE - 1))
  else
    match symbol with
    | none => (0, strncpy w (bytes "Symbol name cannot be NULL") (DYLO_MAX_ERROR_SIZE - 1))
    | some symbol =>
      let r := H.GetProcAddress handle symbol w.host
      let proc := r.1
      let w := { w with host := r.2 }
      if proc = 0 then
        let r := H.GetLastError w.host
        let error := r.1
        let w := { w with host := r.2 }
        (proc, snprintf w DYLO_MAX_ERROR (bytes "Failed to find symbol '%s': Windows error %lu")
          [Arg.str symbol, Arg.ulong error])
      else (proc, w)

/-- What `loader.c` prints: the text of a `printf("%s\n", p)`, or the
`printf("result: %i\n", r)` of the value the call through `add_int` returned. -/
inductive Loader.Out where
  | line (text : List Nat)
  | result (r : Int)

/-- `printf("%s\n", p)` of `loader.c`: what it prints, or `none` when `p` is
`NULL`, for which C defines no behaviour. -/
def Loader.printf (p : Option (List Nat)) : Option (List Loader.Out) :=
  match p with
  | some text => some [Loader.Out.line text]
  | none => none

/-- `main` of `test/loader.c`: its exit code, what it printed, and the final
state; `none` when it passes `NULL` to `printf("%s\n", ...)`. -/
def Loader.main {σ : Type} (H : Host σ) (w : World σ) :
    Option (Int × List Loader.Out × World σ) :=
  let r := dylo_open H (some (bytes "libtest.dylib")) w
  let handle := r.1
  let w := r.2
  if handle = 0 then
    let e := dylo_error w
    match Loader.printf e.1 with
    | some out => some (-1, out, e.2)
    | none => none
  else
    let r := dylo_symbol H handle (some (bytes "add_int")) w
    let add_int := r.1
    let w := r.2
    if add_int = 0 then
      let e := dylo_error w
      match Loader.printf e.1 with
      | some out => some (-1, out, e.2)
      | none => none
    else
      let c := H.invoke add_int 1 1 w.host
      let w := { w with host := c.2 }
      let r := dylo_close H handle w
      if r.1 ≠ 0 then some (-1, [Loader.Out.result c.1], r.2)
      else some (0, [Loader.Out.result c.1], r.2)

/-- One call of the shim's interface, with its arguments. -/
inductive Call where
  | dylo_open (filename : Option (List Nat))
  | dylo_symbol (handle : Nat) (symbol : Option (List Nat))
  | dylo_close (handle : Nat)
  | dylo_error
  | dylo_clear_error

/-- The state after one call (the value the call returns is dropped). -/
def step {σ : Type} (H : Host σ) (c : Call) (w : World σ) : World σ :=
  match c with
  | Call.dylo_open filename => (dylo_open H filename w).2
  | Call.dylo_symbol handle symbol => (dylo_symbol H handle symbol w).2
  | Call.dylo_close handle => (dylo_close H handle w).2
  | Call.dylo_error => (dylo_error w).2
  | Call.dylo_clear_error => dylo_clear_error w

/-- The state after a sequence of calls, made in order. -/
def run {σ : Type} (H : Host σ) (calls : List Call) (w : World σ) : World σ :=
  calls.foldl (fun w c => step H c w) w

/-- What a host call reports besides its result, for a host that follows the
`dlerror` convention of `dlfcn.h`: the error text the call raises, if it raises
one, and the rest of the host state. -/
structure Core (τ : Type) where
  dlopen : List Nat → τ → Nat × Option (List Nat) × τ
  dlsym : Nat → List Nat → τ → Nat × Option (List Nat) × τ
  dlclose : Nat → τ → Int × Option (List Nat) × τ
  invoke : Nat → Int → Int → τ → Int × τ

/-- The error pending after a host call: the one the call raised, or else the
one that was pending before it. -/
def pending (raised before : Option (List Nat)) : Option (List Nat) :=
  match raised with
  | some e => some e
  | none => before

/-- The host built on `C` that follows the `dlerror` convention: the state
holds the pending error next to the state of `C`; `dlerror` returns the pending
error and clears it; the other calls behave as `C` says, whatever is pending,
and replace the pending error only when they raise one. -/
def Core.host {τ : Type} (C : Core τ) : Host (Option (List Nat) × τ) where
  dlerror s := (s.1, (none, s.2))
  dlopen filename s :=
    let r := C.dlopen filename s.2
    (r.1, (pending r.2.1 s.1, r.2.2))
  dlsym handle symbol s :=
    let r := C.dlsym handle symbol s.2
    (r.1, (pending r.2.1 s.1, r.2.2))
  dlclose handle s :=
    let r := C.dlclose handle s.2
    (r.1, (pending r.2.1 s.1, r.2.2))
  invoke f a b s :=
    let r := C.invoke f a b s.2
    (r.1, (s.1, r.2))

/-- A host with one library, `libtest.dylib` (handle 7), exporting `add_int`
(address 4096); every other request fails with an error text. -/
def oneLibrary : Core Unit where
  dlopen filename s :=
    if cstr filename = bytes "libtest.dylib" then (7, none, s)
    else (0, some (cstr filename ++ bytes ": cannot open shared object file"), s)
  dlsym handle symbol s :=
    if handle = 7 ∧ cstr symbol = bytes "add_int" then (4096, none, s)
    else (0, some (bytes "undefined symbol: " ++ cstr symbol), s)
  dlclose handle s :=
    if handle = 7 then (0, none, s) else (-1, some (bytes "invalid handle"), s)
  invoke _ a b s := (a + b, s)

/-- A host on which every request fails and raises no error text. -/
def silent : Core Unit where
  dlopen _ s := (0, none, s)
  dlsym _ _ s := (0, none, s)
  dlclose _ s := (-1, none, s)
  invoke _ _ _ s := (0, s)

/-- A host that only records the names of the calls made to it, in order, and
fails every request without an error text. -/
def recorder : Host (List String) where
  dlerror s := (none, s ++ ["dlerror"])
  dlopen _ s := (0, s ++ ["dlopen"])
  dlsym _ _ s := (0, s ++ ["dlsym"])
  dlclose _ s := (-1, s ++ ["dlclose"])
  invoke _ _ _ s := (0, s ++ ["invoke"])

/-- A world whose error array holds the message a failed call left there. -/
def staleWorld : World (Option (List Nat) × Unit) :=
  (dylo_open oneLibrary.host (some (bytes "nosuch.so")) (World.init (none, ()))).2

/-- A path of 488 bytes, each the letter `a`. -/
def longPath : List Nat := List.replicate 488 97

/-- The invariant of the error array: it has `DYLO_MAX_ERROR_SIZE` bytes and
the last of them is NUL. -/
def Terminated {σ : Type} (w : World σ) : Prop :=
  w.dylo_last_error.length = DYLO_MAX_ERROR_SIZE
    ∧ w.dylo_last_error[DYLO_MAX_ERROR_SIZE - 1]? = some 0

/-! # Theorems -/

set_option maxRecDepth 1000000

/-! ## Strings and blocks -/

theorem cstr_ne_zero (p : List Nat) : ∀ b ∈ cstr p, b ≠ 0 := by
  induction p with
  | nil => simp [cstr]
  | cons a p ih =>
    by_cases ha : a = 0
    · simp [cstr, ha]
    · intro b hb
      simp only [cstr, ha, if_false, List.mem_cons] at hb
      rcases hb with hb | hb
      · exact hb ▸ ha
      · exact ih b hb

theorem cstr_append_nul (t rest : List Nat) (h : ∀ b ∈ t, b ≠ 0) :
    cstr (t ++ 0 :: rest) = t := by
  induction t with
  | nil => simp [cstr]
  | cons a t ih =>
    have ha : a ≠ 0 := h a (by simp)
    have ht : ∀ b ∈ t, b ≠ 0 := fun b hb => h b (by simp [hb])
    simp [cstr, ha, ih ht]

theorem cstr_eq_self (t : List Nat) (h : ∀ b ∈ t, b ≠ 0) : cstr t = t := by
  induction t with
  | nil => simp [cstr]
  | cons a t ih =>
    have ha : a ≠ 0 := h a (by simp)
    have ht : ∀ b ∈ t, b ≠ 0 := fun b hb => h b (by simp [hb])
    simp [cstr, ha, ih ht]

theorem cstr_length_le_of_nul (p : List Nat) (i : Nat) (h : p[i]? = some 0) :
    (cstr p).length ≤ i := by
  induction p generalizing i with
  | nil => simp at h
  | cons a p ih =>
    cases i with
    | zero =>
      simp at h
      simp [cstr, h]
    | succ i =>
      simp at h
      by_cases ha : a = 0
      · simp [cstr, ha]
      · have := ih i h
        simp [cstr, ha]
        exact this

theorem strncpy_block_length (src : List Nat) (n : Nat) : (strncpy_block src n).length = n := by
  simp [strncpy_block]
  omega

theorem snprintf_block_length (size : Nat) (text : List Nat) (h : 0 < size) :
    (snprintf_block size text).length = min (size - 1) text.length + 1 := by
  have : size ≠ 0 := by omega
  simp [snprintf_block, this]

theorem snprintf_block_length_le (size : Nat) (text : List Nat) :
    (snprintf_block size text).length ≤ size := by
  by_cases h : size = 0
  · simp [snprintf_block, h]
  · simp [snprintf_block, h]
    omega

theorem dylo_error_of_text {σ : Type} (t rest : List Nat) (s : σ) (h0 : ∀ b ∈ t, b ≠ 0)
    (hne : t ≠ []) : (dylo_error (⟨t ++ 0 :: rest, s⟩ : World σ)).1 = some t := by
  cases t with
  | nil => exact absurd rfl hne
  | cons a t =>
    have ha : a ≠ 0 := h0 a (by simp)
    have hc := cstr_append_nul (a :: t) rest h0
    simp only [List.cons_append] at hc
    simp [dylo_error, ha, hc]

theorem dylo_error_strncpy {σ : Type} (w : World σ) (msg : List Nat) (n : Nat)
    (h0 : ∀ b ∈ msg, b ≠ 0) (hne : msg ≠ []) (hlt : msg.length < n) :
    (dylo_error (strncpy w msg n)).1 = some msg := by
  have hrep : List.replicate (n - msg.length) 0
      = 0 :: List.replicate (n - msg.length - 1) 0 := by
    obtain ⟨k, hk⟩ : ∃ k, n - msg.length = k + 1 := ⟨n - msg.length - 1, by omega⟩
    rw [hk]; rfl
  have hb : (strncpy w msg n).dylo_last_error
      = msg ++ 0 :: (List.replicate (n - msg.length - 1) 0
          ++ w.dylo_last_error.drop (strncpy_block msg n).length) := by
    simp only [strncpy, store]
    rw [strncpy_block, cstr_eq_self msg h0, List.take_of_length_le (by omega), hrep]
    simp
  have hw : strncpy w msg n = ⟨(strncpy w msg n).dylo_last_error, (strncpy w msg n).host⟩ := rfl
  rw [hw, hb]
  exact dylo_error_of_text msg _ _ h0 hne

theorem dylo_error_snprintf {σ : Type} (w : World σ) (size : Nat) (fmt : List Nat)
    (args : List Arg) (h0 : ∀ b ∈ format fmt args, b ≠ 0) (hne : format fmt args ≠ [])
    (hs : 2 ≤ size) :
    (dylo_error (snprintf w size fmt args)).1 = some ((format fmt args).take (size - 1)) := by
  have hsz : size ≠ 0 := by omega
  have hb : (snprintf w size fmt args).dylo_last_error
      = (format fmt args).take (size - 1) ++ 0 ::
          w.dylo_last_error.drop (snprintf_block size (format fmt args)).length := by
    simp [snprintf, store, snprintf_block, hsz]
  have h0t : ∀ b ∈ (format fmt args).take (size - 1), b ≠ 0 :=
    fun b hb => h0 b (List.mem_of_mem_take hb)
  have hnet : (format fmt args).take (size - 1) ≠ [] := by
    cases hf : format fmt args with
    | nil => exact absurd hf hne
    | cons a t =>
      obtain ⟨k, hk⟩ : ∃ k, size - 1 = k + 1 := ⟨size - 2, by omega⟩
      simp [hk]
  have hw : snprintf w size fmt args
      = ⟨(snprintf w size fmt args).dylo_last_error, (snprintf w size fmt args).host⟩ := rfl
  rw [hw, hb]
  exact dylo_error_of_text _ _ _ h0t hnet

/-! ## The literals of the source -/

theorem filename_null_text : (∀ b ∈ bytes "Filename cannot be NULL", b ≠ 0)
    ∧ bytes "Filename cannot be NULL" ≠ []
    ∧ (bytes "Filename cannot be NULL").length < DYLO_MAX_ERROR_SIZE - 1 := by decide

theorem symbol_null_text : (∀ b ∈ bytes "Symbol name cannot be NULL", b ≠ 0)
    ∧ bytes "Symbol name cannot be NULL" ≠ []
    ∧ (bytes "Symbol name cannot be NULL").length < DYLO_MAX_ERROR_SIZE - 1 := by decide

theorem handle_null_text : (∀ b ∈ bytes "Handle cannot be NULL", b ≠ 0)
    ∧ bytes "Handle cannot be NULL" ≠ []
    ∧ (bytes "Handle cannot be NULL").length < DYLO_MAX_ERROR_SIZE - 1 := by decide

theorem close_unknown_text : (∀ b ∈ bytes "Failed to close library: Unknown error", b ≠ 0)
    ∧ bytes "Failed to close library: Unknown error" ≠ []
    ∧ (bytes "Failed to close library: Unknown error").length < DYLO_MAX_ERROR_SIZE - 1 := by
  decide

theorem format_load (filename error : List Nat) :
    format (bytes "Failed to load library '%s': %s") [Arg.str filename, Arg.str error]
      = bytes "Failed to load library '" ++ (cstr filename ++ (bytes "': " ++ cstr error)) := by
  simp [format, bytes]

theorem format_load_unknown (filename : List Nat) :
    format (bytes "Failed to load library '%s': Unknown error") [Arg.str filename]
      = bytes "Failed to load library '" ++ (cstr filename ++ bytes "': Unknown error") := by
  simp [format, bytes]

theorem format_symbol (symbol error : List Nat) :
    format (bytes "Failed to find symbol '%s': %s") [Arg.str symbol, Arg.str error]
      = bytes "Failed to find symbol '" ++ (cstr symbol ++ (bytes "': " ++ cstr error)) := by
  simp [format, bytes]

theorem format_close (error : List Nat) :
    format (bytes "Failed to close library: %s") [Arg.str error]
      = bytes "Failed to close library: " ++ cstr error := by
  simp [format, bytes]

theorem lit_load : (∀ b ∈ bytes "Failed to load library '", b ≠ 0)
    ∧ (∀ b ∈ bytes "': ", b ≠ 0) ∧ (∀ b ∈ bytes "': Unknown error", b ≠ 0)
    ∧ (∀ b ∈ bytes "Failed to find symbol '", b ≠ 0)
    ∧ (∀ b ∈ bytes "Failed to close library: ", b ≠ 0) := by decide

theorem format_load_ok (filename error : List Nat) :
    (∀ b ∈ format (bytes "Failed to load library '%s': %s") [Arg.str filename, Arg.str error],
      b ≠ 0)
    ∧ format (bytes "Failed to load library '%s': %s") [Arg.str filename, Arg.str error] ≠ [] := by
  rw [format_load]
  refine ⟨?_, by simp [bytes]⟩
  intro b hb
  simp only [List.mem_append] at hb
  rcases hb with hb | hb | hb | hb
  · exact lit_load.1 b hb
  · exact cstr_ne_zero _ b hb
  · exact lit_load.2.1 b hb
  · exact cstr_ne_zero _ b hb

theorem format_load_unknown_ok (filename : List Nat) :
    (∀ b ∈ format (bytes "Failed to load library '%s': Unknown error") [Arg.str filename], b ≠ 0)
    ∧ format (bytes "Failed to load library '%s': Unknown error") [Arg.str filename] ≠ [] := by
  rw [format_load_unknown]
  refine ⟨?_, by simp [bytes]⟩
  intro b hb
  simp only [List.mem_append] at hb
  rcases hb with hb | hb | hb
  · exact lit_load.1 b hb
  · exact cstr_ne_zero _ b hb
  · exact lit_load.2.2.1 b hb

theorem format_symbol_ok (symbol error : List Nat) :
    (∀ b ∈ format (bytes "Failed to find symbol '%s': %s") [Arg.str symbol, Arg.str error],
      b ≠ 0)
    ∧ format (bytes "Failed to find symbol '%s': %s") [Arg.str symbol, Arg.str error] ≠ [] := by
  rw [format_symbol]
  refine ⟨?_, by simp [bytes]⟩
  intro b hb
  simp only [List.mem_append] at hb
  rcases hb with hb | hb | hb | hb
  · exact lit_load.2.2.2.1 b hb
  · exact cstr_ne_zero _ b hb
  · exact lit_load.2.1 b hb
  · exact cstr_ne_zero _ b hb

theorem format_close_ok (error : List Nat) :
    (∀ b ∈ format (bytes "Failed to close library: %s") [Arg.str error], b ≠ 0)
    ∧ format (bytes "Failed to close library: %s") [Arg.str error] ≠ [] := by
  rw [format_close]
  refine ⟨?_, by simp [bytes]⟩
  intro b hb
  simp only [List.mem_append] at hb
  rcases hb with hb | hb
  · exact lit_load.2.2.2.2 b hb
  · exact cstr_ne_zero _ b hb

/-! ## What each call leaves in the error slot -/

theorem dylo_clear_error_host_reads_none {σ : Type} (w : World σ) (s : σ) :
    (dylo_error { dylo_clear_error w with host := s }).1 = none := by
  cases w with
  | mk buf s =>
    cases buf with
    | nil => simp [dylo_error, dylo_clear_error]
    | cons a buf => simp [dylo_error, dylo_clear_error]

/-- C1. An invalid argument is rejected without a host call: `dylo_open(NULL)`,
`dylo_symbol(h, NULL)` and `dylo_symbol(NULL, name)` return `NULL` and
`dylo_close(NULL)` returns -1, whatever the error array held; the array they
leave depends on the prior array only (not on the host or its state), the
host state is returned unchanged, and `dylo_error()` called next returns a
message that is present and not empty. -/
theorem invalid_arguments_rejected (buf : List Nat) (h : Nat) (name : Option (List Nat)) :
    ∃ b1 b2 b3 b4 : List Nat, ∀ (σ : Type) (H : Host σ) (s : σ),
      dylo_open H none ⟨buf, s⟩ = (0, ⟨b1, s⟩)
      ∧ dylo_symbol H h none ⟨buf, s⟩ = (0, ⟨b2, s⟩)
      ∧ dylo_symbol H 0 name ⟨buf, s⟩ = (0, ⟨b3, s⟩)
      ∧ dylo_close H 0 ⟨buf, s⟩ = (-1, ⟨b4, s⟩)
      ∧ (∃ m, m ≠ [] ∧ (dylo_error (⟨b1, s⟩ : World σ)).1 = some m)
      ∧ (∃ m, m ≠ [] ∧ (dylo_error (⟨b2, s⟩ : World σ)).1 = some m)
      ∧ (∃ m, m ≠ [] ∧ (dylo_error (⟨b3, s⟩ : World σ)).1 = some m)
      ∧ (∃ m, m ≠ [] ∧ (dylo_error (⟨b4, s⟩ : World σ)).1 = some m) := by
  refine ⟨store (buf.set 0 0) (strncpy_block (bytes "Filename cannot be NULL")
      (DYLO_MAX_ERROR_SIZE - 1)),
    store (buf.set 0 0) (strncpy_block (bytes "Symbol name cannot be NULL")
      (DYLO_MAX_ERROR_SIZE - 1)),
    store (buf.set 0 0) (strncpy_block (bytes "Symbol name cannot be NULL")
      (DYLO_MAX_ERROR_SIZE - 1)),
    store (buf.set 0 0) (strncpy_block (bytes "Handle cannot be NULL")
      (DYLO_MAX_ERROR_SIZE - 1)), ?_⟩
  intro σ H s
  refine ⟨rfl, ?_, ?_, ?_, ?_, ?_, ?_, ?_⟩
  · by_cases hh : h = 0
    · simp [dylo_symbol, hh, dylo_clear_error, strncpy]
    · simp [dylo_symbol, hh, dylo_clear_error, strncpy]
  · simp [dylo_symbol, dylo_clear_error, strncpy]
  · simp [dylo_close, dylo_clear_error, strncpy]
  · exact ⟨_, filename_null_text.2.1,
      dylo_error_strncpy ⟨buf.set 0 0, s⟩ _ _ filename_null_text.1 filename_null_text.2.1
        filename_null_text.2.2⟩
  · exact ⟨_, symbol_null_text.2.1,
      dylo_error_strncpy ⟨buf.set 0 0, s⟩ _ _ symbol_null_text.1 symbol_null_text.2.1
        symbol_null_text.2.2⟩
  · exact ⟨_, symbol_null_text.2.1,
      dylo_error_strncpy ⟨buf.set 0 0, s⟩ _ _ symbol_null_text.1 symbol_null_text.2.1
        symbol_null_text.2.2⟩
  · exact ⟨_, handle_null_text.2.1,
      dylo_error_strncpy ⟨buf.set 0 0, s⟩ _ _ handle_null_text.1 handle_null_text.2.1
        handle_null_text.2.2⟩

/-- C9. `dylo_error` only reads: it returns the state it was given, it returns
the absent value exactly when the first byte of the array is NUL and the
stored text otherwise, and a second call right after the first returns the same
value. -/
theorem dylo_error_read_only {σ : Type} (w : World σ) :
    (dylo_error w).2 = w
    ∧ ((dylo_error w).1 = none ↔ w.dylo_last_error.getD 0 0 = 0)
    ∧ (dylo_error w).1
        = (if w.dylo_last_error.getD 0 0 = 0 then none else some (cstr w.dylo_last_error))
    ∧ (dylo_error (dylo_error w).2).1 = (dylo_error w).1 := by
  refine ⟨rfl, ?_, ?_, rfl⟩
  · by_cases h : w.dylo_last_error.getD 0 0 = 0
    · simp [dylo_error, h]
    · simp [dylo_error, h]
  · by_cases h : w.dylo_last_error.getD 0 0 = 0
    · simp [dylo_error, h]
    · simp [dylo_error, h]

/-- C2. No stale error survives a success: whatever the error array held, if
`dylo_open` returns a non-null handle, or `dylo_symbol` (given a non-null
handle and name) returns with the host reporting no error after the lookup, or
`dylo_close` returns 0, then `dylo_error()` called next returns the absent
value. -/
theorem no_stale_error_after_success {σ : Type} (H : Host σ) (w : World σ)
    (filename : Option (List Nat)) (handle : Nat) (symbol : List Nat) :
    ((dylo_open H filename w).1 ≠ 0 → (dylo_error (dylo_open H filename w).2).1 = none)
    ∧ (handle ≠ 0 → (H.dlerror (H.dlsym handle symbol (H.dlerror w.host).2).2).1 = none →
        (dylo_error (dylo_symbol H handle (some symbol) w).2).1 = none)
    ∧ ((dylo_close H handle w).1 = 0 → (dylo_error (dylo_close H handle w).2).1 = none) := by
  refine ⟨?_, ?_, ?_⟩
  · cases filename with
    | none => simp [dylo_open]
    | some fn =>
      by_cases hh : (H.dlopen fn (H.dlerror (dylo_clear_error w).host).2).1 = 0
      · intro hne
        exfalso
        apply hne
        simp only [dylo_open, hh, if_true]
        cases (H.dlerror (H.dlopen fn (H.dlerror (dylo_clear_error w).host).2).2).1 <;> rfl
      · intro _
        simp only [dylo_open, hh, if_false]
        exact dylo_clear_error_host_reads_none w _
  · intro hh he
    have he2 : (H.dlerror (H.dlsym handle symbol
        (H.dlerror (dylo_clear_error w).host).2).2).1 = none := he
    simp only [dylo_symbol, hh, if_false, he2]
    exact dylo_clear_error_host_reads_none w _
  · by_cases hh : handle = 0
    · simp [dylo_close, hh]
    · by_cases hr : (H.dlclose handle (dylo_clear_error w).host).1 = 0
      · intro _
        simp only [dylo_close, hh, if_false, hr, ne_eq, not_true_eq_false]
        exact dylo_clear_error_host_reads_none w _
      · intro h0
        exfalso
        apply hr
        simp only [dylo_close, hh, if_false, hr, ne_eq, not_false_eq_true, if_true] at h0
        cases he : (H.dlerror (H.dlclose handle (dylo_clear_error w).host).2).1 with
        | none => simp only [he] at h0; exact h0
        | some e => simp only [he] at h0; exact h0

/-- Witness of C2: on the one-library host, starting from an error array that
holds the message of an earlier failed open, each of the three calls succeeds
and leaves no error to read. -/
theorem no_stale_error_after_success_witness :
    (dylo_error staleWorld).1 ≠ none
    ∧ (dylo_error (dylo_open oneLibrary.host (some (bytes "libtest.dylib")) staleWorld).2).1
        = none
    ∧ (dylo_error (dylo_symbol oneLibrary.host 7 (some (bytes "add_int")) staleWorld).2).1
        = none
    ∧ (dylo_error (dylo_close oneLibrary.host 7 staleWorld).2).1 = none :=
  ⟨by decide,
    (no_stale_error_after_success oneLibrary.host staleWorld (some (bytes "libtest.dylib")) 7
      (bytes "add_int")).1 (by decide),
    (no_stale_error_after_success oneLibrary.host staleWorld (some (bytes "libtest.dylib")) 7
      (bytes "add_int")).2.1 (by decide) (by decide),
    (no_stale_error_after_success oneLibrary.host staleWorld (some (bytes "libtest.dylib")) 7
      (bytes "add_int")).2.2 (by decide)⟩

theorem dylo_open_fst {σ : Type} (H : Host σ) (w : World σ) (filename : List Nat) :
    (dylo_open H (some filename) w).1 = (H.dlopen filename (H.dlerror w.host).2).1 := by
  have hw : (dylo_clear_error w).host = w.host := rfl
  by_cases hh : (H.dlopen filename (H.dlerror w.host).2).1 = 0
  · simp only [dylo_open, hw, hh, if_true]
    cases (H.dlerror (H.dlopen filename (H.dlerror w.host).2).2).1 <;> rfl
  · simp only [dylo_open, hw, hh, if_false]

theorem dylo_symbol_fst {σ : Type} (H : Host σ) (w : World σ) (handle : Nat)
    (symbol : List Nat) (hh : handle ≠ 0)
    (he : (H.dlerror (H.dlsym handle symbol (H.dlerror w.host).2).2).1 = none) :
    (dylo_symbol H handle (some symbol) w).1
      = (H.dlsym handle symbol (H.dlerror w.host).2).1 := by
  have hw : (dylo_clear_error w).host = w.host := rfl
  simp only [dylo_symbol, hh, if_false, hw, he]

theorem dylo_close_fst {σ : Type} (H : Host σ) (w : World σ) (handle : Nat) (hh : handle ≠ 0) :
    (dylo_close H handle w).1 = (H.dlclose handle w.host).1 := by
  have hw : (dylo_clear_error w).host = w.host := rfl
  by_cases hr : (H.dlclose handle w.host).1 = 0
  · simp only [dylo_close, hh, if_false, hw, hr, ne_eq, not_true_eq_false]
  · simp only [dylo_close, hh, if_false, hw, hr, ne_eq, not_false_eq_true, if_true]
    cases (H.dlerror (H.dlclose handle w.host).2).1 <;> rfl

theorem set_zero_twice (l : List Nat) : (l.set 0 0).set 0 0 = l.set 0 0 := by
  cases l <;> rfl

theorem dylo_clear_error_twice {σ : Type} (w : World σ) (s : σ) :
    dylo_clear_error { dylo_clear_error w with host := s }
      = { dylo_clear_error w with host := s } := by
  simp only [dylo_clear_error, set_zero_twice]

theorem dylo_open_of_success {σ : Type} (H : Host σ) (w : World σ) (filename : List Nat)
    (hh : (H.dlopen filename (H.dlerror w.host).2).1 ≠ 0) :
    dylo_open H (some filename) w
      = ((H.dlopen filename (H.dlerror w.host).2).1,
          { dylo_clear_error w with host := (H.dlopen filename (H.dlerror w.host).2).2 }) := by
  have hw : (dylo_clear_error w).host = w.host := rfl
  simp only [dylo_open, hw, hh, if_false]

theorem dylo_symbol_of_success {σ : Type} (H : Host σ) (w : World σ) (handle : Nat)
    (symbol : List Nat) (hh : handle ≠ 0)
    (he : (H.dlerror (H.dlsym handle symbol (H.dlerror w.host).2).2).1 = none) :
    dylo_symbol H handle (some symbol) w
      = ((H.dlsym handle symbol (H.dlerror w.host).2).1,
          { dylo_clear_error w with
            host := (H.dlerror (H.dlsym handle symbol (H.dlerror w.host).2).2).2 }) := by
  have hw : (dylo_clear_error w).host = w.host := rfl
  simp only [dylo_symbol, hh, if_false, hw, he]

theorem dylo_close_of_success {σ : Type} (H : Host σ) (w : World σ) (handle : Nat)
    (hh : handle ≠ 0) (hr : (H.dlclose handle w.host).1 = 0) :
    dylo_close H handle w
      = (0, { dylo_clear_error w with host := (H.dlclose handle w.host).2 }) := by
  have hw : (dylo_clear_error w).host = w.host := rfl
  simp only [dylo_close, hh, if_false, hw, hr, ne_eq, not_true_eq_false]

/-- C3. On success the host's results are passed through. If the host opens
the path with a non-null handle, `dylo_open` returns that handle and leaves
the host as `dlopen` left it; if the host resolves the name to a non-null
address and reports no error, `dylo_symbol` returns that address and leaves
the host as the `dlerror` after `dlsym` left it; `dylo_close` of a non-null
handle returns what `dlclose` returned, and when that is 0 it leaves the host
as `dlclose` left it; in each case the error array is the prior one with its
first byte cleared. So when the host succeeds at each step, `main` of
`loader.c` opens `libtest.dylib`, resolves `add_int`, calls it with 1 and 1,
prints its result, closes the handle and returns 0, leaving the host as that
`dlclose` left it. -/
theorem host_results_passed_through {σ : Type} (H : Host σ) (w : World σ)
    (filename symbol : List Nat) (handle : Nat) :
    ((H.dlopen filename (H.dlerror w.host).2).1 ≠ 0 →
      dylo_open H (some filename) w
        = ((H.dlopen filename (H.dlerror w.host).2).1,
            { dylo_clear_error w with host := (H.dlopen filename (H.dlerror w.host).2).2 }))
    ∧ (handle ≠ 0 → (H.dlsym handle symbol (H.dlerror w.host).2).1 ≠ 0 →
        (H.dlerror (H.dlsym handle symbol (H.dlerror w.host).2).2).1 = none →
        dylo_symbol H handle (some symbol) w
            = ((H.dlsym handle symbol (H.dlerror w.host).2).1,
                { dylo_clear_error w with
                  host := (H.dlerror (H.dlsym handle symbol (H.dlerror w.host).2).2).2 })
          ∧ (dylo_symbol H handle (some symbol) w).1 ≠ 0)
    ∧ (handle ≠ 0 → (dylo_close H handle w).1 = (H.dlclose handle w.host).1)
    ∧ (handle ≠ 0 → (H.dlclose handle w.host).1 = 0 →
        dylo_close H handle w
          = (0, { dylo_clear_error w with host := (H.dlclose handle w.host).2 }))
    ∧ (let opened := H.dlopen (bytes "libtest.dylib") (H.dlerror w.host).2
       let found := H.dlsym opened.1 (bytes "add_int") (H.dlerror opened.2).2
       let reported := H.dlerror found.2
       let called := H.invoke found.1 1 1 reported.2
       let closed := H.dlclose opened.1 called.2
       opened.1 ≠ 0 → found.1 ≠ 0 → reported.1 = none → closed.1 = 0 →
         Loader.main H w
           = some (0, [Loader.Out.result called.1],
              { dylo_clear_error w with host := closed.2 })) := by
  refine ⟨dylo_open_of_success H w filename, ?_, dylo_close_fst H w handle,
    dylo_close_of_success H w handle, ?_⟩
  · intro hh hs he
    rw [dylo_symbol_of_success H w handle symbol hh he]
    exact ⟨rfl, hs⟩
  · intro opened found reported called closed ho hf hr hc
    have h1 := dylo_open_of_success H w (bytes "libtest.dylib") ho
    have h2 := dylo_symbol_of_success H { dylo_clear_error w with host := opened.2 }
      opened.1 (bytes "add_int") ho hr
    rw [dylo_clear_error_twice] at h2
    have h3 := dylo_close_of_success H { dylo_clear_error w with host := called.2 }
      opened.1 ho hc
    rw [dylo_clear_error_twice] at h3
    simp only [Loader.main, h1, ho, if_false, h2, hf, h3, ne_eq, not_true_eq_false]

/-- Witness of C3: on the one-library host the three calls pass the host's
handle 7, address 4096 and result 0 through, and `main` prints the result 2
of `add_int(1, 1)` and returns 0. -/
theorem host_results_passed_through_witness :
    (dylo_open oneLibrary.host (some (bytes "libtest.dylib")) (World.init (none, ()))).1 = 7
    ∧ (dylo_symbol oneLibrary.host 7 (some (bytes "add_int")) (World.init (none, ()))).1 = 4096
    ∧ (dylo_close oneLibrary.host 7 (World.init (none, ()))).1 = 0
    ∧ (dylo_close oneLibrary.host 8 (World.init (none, ()))).1 = -1
    ∧ Loader.main oneLibrary.host (World.init (none, ()))
        = some (0, [Loader.Out.result 2], World.init (none, ())) :=
  ⟨(congrArg Prod.fst ((host_results_passed_through oneLibrary.host (World.init (none, ()))
      (bytes "libtest.dylib") (bytes "add_int") 7).1 (by decide))).trans (by decide),
    (congrArg Prod.fst ((host_results_passed_through oneLibrary.host (World.init (none, ()))
      (bytes "libtest.dylib") (bytes "add_int") 7).2.1 (by decide) (by decide)
        (by decide)).1).trans (by decide),
    (congrArg Prod.fst ((host_results_passed_through oneLibrary.host (World.init (none, ()))
      (bytes "libtest.dylib") (bytes "add_int") 7).2.2.2.1 (by decide) (by decide))),
    ((host_results_passed_through oneLibrary.host (World.init (none, ()))
      (bytes "libtest.dylib") (bytes "add_int") 8).2.2.1 (by decide)).trans (by decide),
    ((host_results_passed_through oneLibrary.host (World.init (none, ()))
      (bytes "libtest.dylib") (bytes "add_int") 7).2.2.2.2 (by decide) (by decide) (by decide)
        (by decide)).trans rfl⟩

theorem dylo_open_of_failure {σ : Type} (H : Host σ) (w : World σ) (filename : List Nat)
    (hh : (H.dlopen filename (H.dlerror w.host).2).1 = 0) :
    (dylo_error (dylo_open H (some filename) w).2).1
      = some ((match (H.dlerror (H.dlopen filename (H.dlerror w.host).2).2).1 with
          | some error =>
            bytes "Failed to load library '" ++ (cstr filename ++ (bytes "': " ++ cstr error))
          | none =>
            bytes "Failed to load library '" ++ (cstr filename ++ bytes "': Unknown error")).take
          (DYLO_MAX_ERROR_SIZE - 1)) := by
  have hw : (dylo_clear_error w).host = w.host := rfl
  simp only [dylo_open, hw, hh, if_true]
  cases (H.dlerror (H.dlopen filename (H.dlerror w.host).2).2).1 with
  | none =>
    simp only []
    rw [dylo_error_snprintf _ _ _ _ (format_load_unknown_ok filename).1
      (format_load_unknown_ok filename).2 (by decide), format_load_unknown]
  | some e =>
    simp only []
    rw [dylo_error_snprintf _ _ _ _ (format_load_ok filename e).1
      (format_load_ok filename e).2 (by decide), format_load]

theorem dylo_symbol_of_failure {σ : Type} (H : Host σ) (w : World σ) (handle : Nat)
    (symbol m : List Nat) (hh : handle ≠ 0)
    (hm : (H.dlerror (H.dlsym handle symbol (H.dlerror w.host).2).2).1 = some m) :
    (dylo_symbol H handle (some symbol) w).1 = 0
    ∧ (dylo_error (dylo_symbol H handle (some symbol) w).2).1
      = some ((bytes "Failed to find symbol '" ++ (cstr symbol ++ (bytes "': " ++ cstr m))).take
          (DYLO_MAX_ERROR_SIZE - 1)) := by
  have hw : (dylo_clear_error w).host = w.host := rfl
  simp only [dylo_symbol, hh, if_false, hw, hm, true_and]
  rw [dylo_error_snprintf _ _ _ _ (format_symbol_ok symbol m).1
    (format_symbol_ok symbol m).2 (by decide), format_symbol]

theorem dylo_close_of_failure {σ : Type} (H : Host σ) (w : World σ) (handle : Nat)
    (hh : handle ≠ 0) (hr : (H.dlclose handle w.host).1 ≠ 0) :
    (dylo_error (dylo_close H handle w).2).1
      = some (match (H.dlerror (H.dlclose handle w.host).2).1 with
          | some error => (bytes "Failed to close library: " ++ cstr error).take
              (DYLO_MAX_ERROR_SIZE - 1)
          | none => bytes "Failed to close library: Unknown error") := by
  have hw : (dylo_clear_error w).host = w.host := rfl
  simp only [dylo_close, hh, if_false, hw, hr, ne_eq, not_false_eq_true, if_true]
  cases (H.dlerror (H.dlclose handle w.host).2).1 with
  | none =>
    simp only []
    rw [dylo_error_strncpy _ _ _ close_unknown_text.1 close_unknown_text.2.1
      close_unknown_text.2.2]
  | some e =>
    simp only []
    rw [dylo_error_snprintf _ _ _ _ (format_close_ok e).1 (format_close_ok e).2 (by decide),
      format_close]

theorem take_min_length (n : Nat) (t : List Nat) : t.take (min t.length n) = t.take n := by
  rcases Nat.le_total t.length n with h | h
  · rw [Nat.min_eq_left h, List.take_of_length_le h, List.take_of_length_le (Nat.le_refl _)]
  · rw [Nat.min_eq_right h]

/-- C5. A failed symbol lookup: for a non-null handle and name, when the host
reports the error text `m` after the lookup, `dylo_symbol` returns `NULL`
(whatever address the host returned) and `dylo_error()` returns the first
`min(L, 511)` bytes of `"Failed to find symbol '" ++ name ++ "': " ++ m`, where
`L` is the length of that string and `511 = DYLO_MAX_ERROR_SIZE - 1`. -/
theorem failed_lookup_diagnostic {σ : Type} (H : Host σ) (w : World σ) (handle : Nat)
    (symbol m : List Nat) (hh : handle ≠ 0)
    (hm : (H.dlerror (H.dlsym handle symbol (H.dlerror w.host).2).2).1 = some m) :
    (dylo_symbol H handle (some symbol) w).1 = 0
    ∧ (dylo_error (dylo_symbol H handle (some symbol) w).2).1
      = some ((bytes "Failed to find symbol '" ++ cstr symbol ++ bytes "': " ++ cstr m).take
          (min (bytes "Failed to find symbol '" ++ cstr symbol ++ bytes "': " ++ cstr m).length
            511))
    ∧ DYLO_MAX_ERROR_SIZE - 1 = 511 := by
  refine ⟨(dylo_symbol_of_failure H w handle symbol m hh hm).1, ?_, rfl⟩
  rw [take_min_length, (dylo_symbol_of_failure H w handle symbol m hh hm).2]
  simp [DYLO_MAX_ERROR_SIZE]

/-- Witness of C5: looking up `sub` in the one library fails with the host's
text, and the diagnostic is the documented string. -/
theorem failed_lookup_diagnostic_witness :
    (dylo_symbol oneLibrary.host 7 (some (bytes "sub")) (World.init (none, ()))).1 = 0
    ∧ (dylo_error (dylo_symbol oneLibrary.host 7 (some (bytes "sub"))
        (World.init (none, ()))).2).1
      = some (bytes "Failed to find symbol 'sub': undefined symbol: sub") :=
  ⟨(failed_lookup_diagnostic oneLibrary.host (World.init (none, ())) 7 (bytes "sub")
      (bytes "undefined symbol: sub") (by decide) (by decide)).1,
    ((failed_lookup_diagnostic oneLibrary.host (World.init (none, ())) 7 (bytes "sub")
      (bytes "undefined symbol: sub") (by decide) (by decide)).2.1).trans (by decide)⟩

theorem load_lit_length : (bytes "Failed to load library '").length = 24 := by decide

theorem take_path_in_text (P R : List Nat) :
    ∃ t, (bytes "Failed to load library '" ++ (P ++ R)).take (DYLO_MAX_ERROR_SIZE - 1)
      = bytes "Failed to load library '" ++ P.take 487 ++ t := by
  refine ⟨R.take (487 - P.length), ?_⟩
  rw [List.take_append_eq_append_take, List.take_of_length_le (by rw [load_lit_length]; decide),
    load_lit_length, List.take_append_eq_append_take]
  simp [DYLO_MAX_ERROR_SIZE]

/-- C4, as amended. For every non-null path, if the host fails to open it,
`dylo_open` returns `NULL` and the text `dylo_error()` returns contains the
first 487 bytes of the path as a contiguous substring, hence the whole path
when it is at most 487 bytes long (487 = 511 - 24, the room the 511-byte text
leaves after `Failed to load library '`), whatever the host's error text and
also when the host reports none. -/
theorem failed_open_diagnostic_contains_path {σ : Type} (H : Host σ) (w : World σ)
    (filename : List Nat) (hfail : (H.dlopen filename (H.dlerror w.host).2).1 = 0) :
    (dylo_open H (some filename) w).1 = 0
    ∧ ∃ t, (dylo_error (dylo_open H (some filename) w).2).1 = some t
        ∧ (cstr filename).take 487 <:+: t
        ∧ ((cstr filename).length ≤ 487 → cstr filename <:+: t) := by
  refine ⟨(dylo_open_fst H w filename).trans hfail, ?_⟩
  have key : ∃ t, (dylo_error (dylo_open H (some filename) w).2).1 = some t
      ∧ (cstr filename).take 487 <:+: t := by
    rw [dylo_open_of_failure H w filename hfail]
    cases (H.dlerror (H.dlopen filename (H.dlerror w.host).2).2).1 with
    | none =>
      obtain ⟨r, hr⟩ := take_path_in_text (cstr filename) (bytes "': Unknown error")
      exact ⟨_, rfl, ⟨bytes "Failed to load library '", r, hr.symm⟩⟩
    | some e =>
      obtain ⟨r, hr⟩ := take_path_in_text (cstr filename) (bytes "': " ++ cstr e)
      exact ⟨_, rfl, ⟨bytes "Failed to load library '", r, hr.symm⟩⟩
  obtain ⟨t, ht, hin⟩ := key
  refine ⟨t, ht, hin, fun hlen => ?_⟩
  rw [List.take_of_length_le hlen] at hin
  exact hin

/-- Witness of C4 as amended: opening `nosuch.so` on the one-library host
fails, and the diagnostic contains the path. -/
theorem failed_open_diagnostic_contains_path_witness :
    (dylo_open oneLibrary.host (some (bytes "nosuch.so")) (World.init (none, ()))).1 = 0
    ∧ ∃ t, (dylo_error (dylo_open oneLibrary.host (some (bytes "nosuch.so"))
          (World.init (none, ()))).2).1 = some t
        ∧ (cstr (bytes "nosuch.so")).take 487 <:+: t
        ∧ ((cstr (bytes "nosuch.so")).length ≤ 487 → cstr (bytes "nosuch.so") <:+: t) :=
  failed_open_diagnostic_contains_path oneLibrary.host (World.init (none, ()))
    (bytes "nosuch.so") (by decide)

/-- Counterexample to C4 as stated: a path of 488 bytes that the host fails to
open. `dylo_open` returns `NULL`, and the text `dylo_error()` returns, cut
to 511 bytes, does not contain the path. -/
theorem long_path_cut_from_diagnostic :
    (oneLibrary.host.dlopen longPath
        (oneLibrary.host.dlerror (World.init (none, ())).host).2).1 = 0
    ∧ (dylo_open oneLibrary.host (some longPath) (World.init (none, ()))).1 = 0
    ∧ ∃ t, (dylo_error (dylo_open oneLibrary.host (some longPath)
          (World.init (none, ()))).2).1 = some t
        ∧ ¬ (longPath <:+: t) := by
  refine ⟨by decide, by decide, bytes "Failed to load library '" ++ List.replicate 487 97,
    by decide, by decide⟩

theorem take_ne_nil (t : List Nat) (n : Nat) (ht : t ≠ []) (hn : 0 < n) : t.take n ≠ [] := by
  cases t with
  | nil => exact absurd rfl ht
  | cons a t =>
    obtain ⟨k, hk⟩ : ∃ k, n = k + 1 := ⟨n - 1, by omega⟩
    simp [hk]

theorem dylo_open_null_reads {σ : Type} (H : Host σ) (w : World σ) :
    (dylo_error (dylo_open H none w).2).1 = some (bytes "Filename cannot be NULL") :=
  dylo_error_strncpy (dylo_clear_error w) _ _ filename_null_text.1 filename_null_text.2.1
    filename_null_text.2.2

theorem dylo_symbol_null_handle_reads {σ : Type} (H : Host σ) (w : World σ)
    (symbol : Option (List Nat)) :
    (dylo_error (dylo_symbol H 0 symbol w).2).1 = some (bytes "Symbol name cannot be NULL") :=
  dylo_error_strncpy (dylo_clear_error w) _ _ symbol_null_text.1 symbol_null_text.2.1
    symbol_null_text.2.2

theorem dylo_symbol_null_name_reads {σ : Type} (H : Host σ) (w : World σ) (handle : Nat) :
    (dylo_error (dylo_symbol H handle none w).2).1
      = some (bytes "Symbol name cannot be NULL") := by
  by_cases hh : handle = 0
  · rw [hh]; exact dylo_symbol_null_handle_reads H w none
  · simp only [dylo_symbol, hh, if_false]
    exact dylo_error_strncpy (dylo_clear_error w) _ _ symbol_null_text.1 symbol_null_text.2.1
      symbol_null_text.2.2

theorem dylo_close_null_reads {σ : Type} (H : Host σ) (w : World σ) :
    (dylo_error (dylo_close H 0 w).2).1 = some (bytes "Handle cannot be NULL") :=
  dylo_error_strncpy (dylo_clear_error w) _ _ handle_null_text.1 handle_null_text.2.1
    handle_null_text.2.2

/-- C6, as amended. A failure return comes with a recorded error, except for a
lookup the host answers with the null address and no error: whenever
`dylo_open` returns `NULL`, or `dylo_close` returns a nonzero value,
`dylo_error()` called next returns a message that is present and not empty;
`dylo_symbol` returns `NULL` with such a message whenever its handle or its
name is null or the host reports an error after the lookup; and when the host
reports no error after the lookup, `dylo_symbol` returns the host's address,
null or not, and records no error. -/
theorem failure_records_error {σ : Type} (H : Host σ) (w : World σ)
    (filename : Option (List Nat)) (handle : Nat) (symbol : Option (List Nat)) :
    ((dylo_open H filename w).1 = 0 →
      ∃ m, m ≠ [] ∧ (dylo_error (dylo_open H filename w).2).1 = some m)
    ∧ ((dylo_close H handle w).1 ≠ 0 →
      ∃ m, m ≠ [] ∧ (dylo_error (dylo_close H handle w).2).1 = some m)
    ∧ ((handle = 0 ∨ symbol = none ∨ ∃ name e, symbol = some name
          ∧ (H.dlerror (H.dlsym handle name (H.dlerror w.host).2).2).1 = some e) →
      (dylo_symbol H handle symbol w).1 = 0
      ∧ ∃ m, m ≠ [] ∧ (dylo_error (dylo_symbol H handle symbol w).2).1 = some m)
    ∧ (∀ name, handle ≠ 0 → symbol = some name →
        (H.dlerror (H.dlsym handle name (H.dlerror w.host).2).2).1 = none →
      (dylo_symbol H handle symbol w).1 = (H.dlsym handle name (H.dlerror w.host).2).1
      ∧ (dylo_error (dylo_symbol H handle symbol w).2).1 = none) := by
  refine ⟨?_, ?_, ?_, ?_⟩
  · intro h0
    cases filename with
    | none => exact ⟨_, filename_null_text.2.1, dylo_open_null_reads H w⟩
    | some fn =>
      have hfail : (H.dlopen fn (H.dlerror w.host).2).1 = 0 := by
        rw [← dylo_open_fst H w fn]; exact h0
      refine ⟨_, ?_, dylo_open_of_failure H w fn hfail⟩
      apply take_ne_nil _ _ _ (by decide)
      cases (H.dlerror (H.dlopen fn (H.dlerror w.host).2).2).1 <;> simp [bytes]
  · intro hne
    by_cases hh : handle = 0
    · rw [hh]; exact ⟨_, handle_null_text.2.1, dylo_close_null_reads H w⟩
    · have hr : (H.dlclose handle w.host).1 ≠ 0 := by
        rw [← dylo_close_fst H w handle hh]; exact hne
      refine ⟨_, ?_, dylo_close_of_failure H w handle hh hr⟩
      cases (H.dlerror (H.dlclose handle w.host).2).1 with
      | none => exact close_unknown_text.2.1
      | some e => exact take_ne_nil _ _ (by simp [bytes]) (by decide)
  · intro hcase
    by_cases hh : handle = 0
    · rw [hh]
      exact ⟨by simp [dylo_symbol], _, symbol_null_text.2.1,
        dylo_symbol_null_handle_reads H w symbol⟩
    · rcases hcase with h | h | ⟨name, e, hs, he⟩
      · exact absurd h hh
      · rw [h]
        exact ⟨by simp [dylo_symbol], _, symbol_null_text.2.1,
          dylo_symbol_null_name_reads H w handle⟩
      · rw [hs]
        refine ⟨(dylo_symbol_of_failure H w handle name e hh he).1, _, ?_,
          (dylo_symbol_of_failure H w handle name e hh he).2⟩
        exact take_ne_nil _ _ (by simp [bytes]) (by decide)
  · intro name hh hs he
    rw [hs]
    refine ⟨dylo_symbol_fst H w handle name hh he, ?_⟩
    have hw : (dylo_clear_error w).host = w.host := rfl
    simp only [dylo_symbol, hh, if_false, hw, he]
    exact dylo_clear_error_host_reads_none w _

/-- Witness of C6 as amended: on the one-library host a failed open, a failed
close and a failed lookup each leave a message to read. -/
theorem failure_records_error_witness :
    (∃ m, m ≠ [] ∧ (dylo_error (dylo_open oneLibrary.host (some (bytes "nosuch.so"))
        (World.init (none, ()))).2).1 = some m)
    ∧ (∃ m, m ≠ [] ∧ (dylo_error (dylo_close oneLibrary.host 8
        (World.init (none, ()))).2).1 = some m)
    ∧ ((dylo_symbol oneLibrary.host 7 (some (bytes "sub")) (World.init (none, ()))).1 = 0
      ∧ ∃ m, m ≠ [] ∧ (dylo_error (dylo_symbol oneLibrary.host 7 (some (bytes "sub"))
        (World.init (none, ()))).2).1 = some m) :=
  ⟨(failure_records_error oneLibrary.host (World.init (none, ())) (some (bytes "nosuch.so")) 8
      (some (bytes "sub"))).1 (by decide),
    (failure_records_error oneLibrary.host (World.init (none, ())) (some (bytes "nosuch.so")) 8
      (some (bytes "sub"))).2.1 (by decide),
    (failure_records_error oneLibrary.host (World.init (none, ())) (some (bytes "nosuch.so")) 7
      (some (bytes "sub"))).2.2.1
      (Or.inr (Or.inr ⟨bytes "sub", bytes "undefined symbol: sub", rfl, by decide⟩))⟩

/-- Counterexample to C6 as stated: on a host that answers a lookup with the
null address and no error, `dylo_symbol` returns `NULL` and `dylo_error()`
called next returns the absent value. -/
theorem null_symbol_without_error :
    (dylo_symbol silent.host 7 (some (bytes "add_int")) (World.init (none, ()))).1 = 0
    ∧ (dylo_error (dylo_symbol silent.host 7 (some (bytes "add_int"))
        (World.init (none, ()))).2).1 = none := by
  decide

/-! ## The error array keeps its size and its final NUL -/

theorem terminated_init {σ : Type} (s : σ) : Terminated (World.init s) := by
  constructor
  · simp [World.init]
  · exact List.getElem?_replicate_of_lt (by decide)

theorem terminated_clear {σ : Type} (w : World σ) (h : Terminated w) :
    Terminated (dylo_clear_error w) := by
  constructor
  · simpa [dylo_clear_error] using h.1
  · have := h.2
    simp only [dylo_clear_error, DYLO_MAX_ERROR_SIZE] at this ⊢
    rw [List.getElem?_set_ne (by decide)]
    exact this

theorem store_terminated (a block : List Nat) (ha : a.length = DYLO_MAX_ERROR_SIZE)
    (hz : a[DYLO_MAX_ERROR_SIZE - 1]? = some 0)
    (hb : block.length ≤ DYLO_MAX_ERROR_SIZE - 1
      ∨ (block.length = DYLO_MAX_ERROR_SIZE ∧ block[DYLO_MAX_ERROR_SIZE - 1]? = some 0)) :
    (store a block).length = DYLO_MAX_ERROR_SIZE
      ∧ (store a block)[DYLO_MAX_ERROR_SIZE - 1]? = some 0 := by
  simp only [DYLO_MAX_ERROR_SIZE] at *
  rcases hb with hb | ⟨hb, hbz⟩
  · constructor
    · simp [store]; omega
    · by_cases hlt : block.length = 511
      · simp only [store]
        rw [List.getElem?_append_right (by omega), List.getElem?_drop, hlt]
        simpa using hz
      · simp only [store]
        rw [List.getElem?_append_right (by omega), List.getElem?_drop]
        have : block.length + (511 - block.length) = 511 := by omega
        rw [this]
        exact hz
  · constructor
    · simp [store]; omega
    · simp only [store]
      rw [List.getElem?_append_left (by omega)]
      exact hbz

theorem terminated_strncpy {σ : Type} (w : World σ) (src : List Nat) (h : Terminated w) :
    Terminated (strncpy w src (DYLO_MAX_ERROR_SIZE - 1)) :=
  store_terminated _ _ h.1 h.2 (Or.inl (by rw [strncpy_block_length]))

theorem terminated_snprintf {σ : Type} (w : World σ) (fmt : List Nat) (args : List Arg)
    (h : Terminated w) : Terminated (snprintf w DYLO_MAX_ERROR_SIZE fmt args) := by
  apply store_terminated _ _ h.1 h.2
  have hl := snprintf_block_length DYLO_MAX_ERROR_SIZE (format fmt args) (by decide)
  by_cases hlen : (format fmt args).length < DYLO_MAX_ERROR_SIZE - 1
  · left
    rw [hl]
    simp only [DYLO_MAX_ERROR_SIZE] at *
    omega
  · right
    simp only [DYLO_MAX_ERROR_SIZE] at *
    refine ⟨by omega, ?_⟩
    have ht : ((format fmt args).take (512 - 1)).length = 511 := by
      simp
      omega
    simp only [snprintf_block]
    simp only [show (512 : Nat) ≠ 0 by decide, if_false]
    rw [List.getElem?_append_right (by omega), ht]
    rfl

theorem terminated_dylo_open {σ : Type} (H : Host σ) (filename : Option (List Nat))
    (w : World σ) (h : Terminated w) : Terminated (dylo_open H filename w).2 := by
  have hc := terminated_clear w h
  cases filename with
  | none => exact terminated_strncpy _ _ hc
  | some fn =>
    simp only [dylo_open]
    split
    · split
      · exact terminated_snprintf _ _ _ hc
      · exact terminated_snprintf _ _ _ hc
    · exact hc

theorem terminated_dylo_symbol {σ : Type} (H : Host σ) (handle : Nat)
    (symbol : Option (List Nat)) (w : World σ) (h : Terminated w) :
    Terminated (dylo_symbol H handle symbol w).2 := by
  have hc := terminated_clear w h
  simp only [dylo_symbol]
  split
  · exact terminated_strncpy _ _ hc
  · cases symbol with
    | none => exact terminated_strncpy _ _ hc
    | some name =>
      simp only []
      split
      · exact terminated_snprintf _ _ _ hc
      · exact hc

theorem terminated_dylo_close {σ : Type} (H : Host σ) (handle : Nat) (w : World σ)
    (h : Terminated w) : Terminated (dylo_close H handle w).2 := by
  have hc := terminated_clear w h
  simp only [dylo_close]
  split
  · exact terminated_strncpy _ _ hc
  · split
    · split
      · exact terminated_snprintf _ _ _ hc
      · exact terminated_strncpy _ _ hc
    · exact hc

theorem terminated_step {σ : Type} (H : Host σ) (c : Call) (w : World σ) (h : Terminated w) :
    Terminated (step H c w) := by
  cases c with
  | dylo_open filename => exact terminated_dylo_open H filename w h
  | dylo_symbol handle symbol => exact terminated_dylo_symbol H handle symbol w h
  | dylo_close handle => exact terminated_dylo_close H handle w h
  | dylo_error => exact h
  | dylo_clear_error => exact terminated_clear w h

theorem terminated_run {σ : Type} (H : Host σ) (calls : List Call) (w : World σ)
    (h : Terminated w) : Terminated (run H calls w) := by
  induction calls generalizing w with
  | nil => exact h
  | cons c calls ih => exact ih (step H c w) (terminated_step H c w h)

/-- C8. Starting from the all-zero array of `DYLO_MAX_ERROR_SIZE = 512` bytes,
after any sequence of `dylo_open`, `dylo_symbol`, `dylo_close`, `dylo_error`
and `dylo_clear_error` calls, with any arguments and any host, the array still
has 512 bytes (no block was written past index 511), its byte 511 is NUL, so
it holds a NUL, and the text `dylo_error()` returns has at most 511 bytes. The
blocks the calls write, by `strncpy` with `DYLO_MAX_ERROR_SIZE - 1` and by
`snprintf` with `DYLO_MAX_ERROR_SIZE`, have at most 512 bytes each. -/
theorem error_buffer_never_overflows {σ : Type} (H : Host σ) (calls : List Call) (s : σ) :
    DYLO_MAX_ERROR_SIZE = 512
    ∧ (run H calls (World.init s)).dylo_last_error.length = 512
    ∧ (run H calls (World.init s)).dylo_last_error[511]? = some 0
    ∧ 0 ∈ (run H calls (World.init s)).dylo_last_error
    ∧ (cstr (run H calls (World.init s)).dylo_last_error).length ≤ 511
    ∧ (∀ t, (dylo_error (run H calls (World.init s))).1 = some t → t.length ≤ 511)
    ∧ (∀ src, (strncpy_block src (DYLO_MAX_ERROR_SIZE - 1)).length ≤ 512)
    ∧ (∀ text, (snprintf_block DYLO_MAX_ERROR_SIZE text).length ≤ 512) := by
  have h := terminated_run H calls (World.init s) (terminated_init s)
  have h2 : (run H calls (World.init s)).dylo_last_error[511]? = some 0 := h.2
  have h3 := cstr_length_le_of_nul _ _ h2
  refine ⟨rfl, h.1, h2, ?_, h3, ?_, fun src => by rw [strncpy_block_length]; decide,
    fun text => snprintf_block_length_le _ text⟩
  · exact List.getElem?_mem h2
  · intro t ht
    simp only [dylo_error] at ht
    split at ht
    · cases ht; exact h3
    · cases ht

theorem windows_symbol_null_handle_reads {σ : Type} (H : Windows.Host σ) (size : Nat)
    (w : World σ) (symbol : Option (List Nat)) :
    (dylo_error (Windows.dylo_symbol H size 0 symbol w).2).1
      = some (bytes "Handle cannot be NULL") :=
  dylo_error_strncpy (dylo_clear_error w) _ _ handle_null_text.1 handle_null_text.2.1
    handle_null_text.2.2

/-- C7 fails on the code. For a null handle the POSIX `dylo_symbol` records
`Symbol name cannot be NULL`, the very message it records for a null name,
while the Windows `dylo_symbol` and `dylo_close` record `Handle cannot be
NULL` for a null handle; the two messages differ. -/
theorem posix_symbol_null_handle_message {σ : Type} (H : Host σ) (HW : Windows.Host σ)
    (size : Nat) (w : World σ) (handle : Nat) (name : Option (List Nat)) :
    (dylo_error (dylo_symbol H 0 name w).2).1 = some (bytes "Symbol name cannot be NULL")
    ∧ (dylo_error (dylo_symbol H handle none w).2).1 = some (bytes "Symbol name cannot be NULL")
    ∧ (dylo_error (Windows.dylo_symbol HW size 0 name w).2).1
        = some (bytes "Handle cannot be NULL")
    ∧ (dylo_error (dylo_close H 0 w).2).1 = some (bytes "Handle cannot be NULL")
    ∧ bytes "Symbol name cannot be NULL" ≠ bytes "Handle cannot be NULL" :=
  ⟨dylo_symbol_null_handle_reads H w name, dylo_symbol_null_name_reads H w handle,
    windows_symbol_null_handle_reads HW size w name, dylo_close_null_reads H w, by decide⟩

/-- On a host that follows the `dlerror` convention, what `dylo_open` and
`dylo_symbol` return and what they leave in the error array do not depend on
the error that was pending in the host before the call. -/
theorem pending_error_drained_by_open_and_symbol {τ : Type} (C : Core τ) (buf : List Nat)
    (p q : Option (List Nat)) (c : τ) (filename symbol : Option (List Nat)) (handle : Nat) :
    (dylo_open C.host filename ⟨buf, (p, c)⟩).1 = (dylo_open C.host filename ⟨buf, (q, c)⟩).1
    ∧ (dylo_open C.host filename ⟨buf, (p, c)⟩).2.dylo_last_error
        = (dylo_open C.host filename ⟨buf, (q, c)⟩).2.dylo_last_error
    ∧ (dylo_symbol C.host handle symbol ⟨buf, (p, c)⟩).1
        = (dylo_symbol C.host handle symbol ⟨buf, (q, c)⟩).1
    ∧ (dylo_symbol C.host handle symbol ⟨buf, (p, c)⟩).2.dylo_last_error
        = (dylo_symbol C.host handle symbol ⟨buf, (q, c)⟩).2.dylo_last_error := by
  refine ⟨?_, ?_, ?_, ?_⟩
  · cases filename <;> rfl
  · cases filename <;> rfl
  · by_cases hh : handle = 0
    · simp only [dylo_symbol, hh, if_true]
    · cases symbol with
      | none => simp only [dylo_symbol, hh, if_false]
      | some name =>
        simp only [dylo_symbol, hh, if_false]
        rfl
  · by_cases hh : handle = 0
    · simp only [dylo_symbol, hh, if_true]
      rfl
    · cases symbol with
      | none =>
        simp only [dylo_symbol, hh, if_false]
        rfl
      | some name =>
        simp only [dylo_symbol, hh, if_false]
        rfl

/-- C10 fails on the code for `dylo_close`. The calls a recording host sees
are `dlerror, dlopen, dlerror` for `dylo_open` and `dlerror, dlsym, dlerror`
for `dylo_symbol`, but `dlclose, dlerror` for `dylo_close`: nothing drains the
pending error before `dlclose`. So on a host whose `dlclose` fails without an
error text, an error pending before the call is reported as the reason
(`Failed to close library: stale`), where the same call with nothing pending
reports `Unknown error`. -/
theorem dylo_close_does_not_drain :
    (dylo_open recorder (some (bytes "libtest.dylib")) (World.init [])).2.host
      = ["dlerror", "dlopen", "dlerror"]
    ∧ (dylo_symbol recorder 7 (some (bytes "add_int")) (World.init [])).2.host
      = ["dlerror", "dlsym", "dlerror"]
    ∧ (dylo_close recorder 7 (World.init [])).2.host = ["dlclose", "dlerror"]
    ∧ (dylo_close silent.host 7 (World.init (some (bytes "stale"), ()))).1 = -1
    ∧ (dylo_error (dylo_close silent.host 7 (World.init (some (bytes "stale"), ()))).2).1
      = some (bytes "Failed to close library: stale")
    ∧ (dylo_error (dylo_close silent.host 7 (World.init (none, ()))).2).1
      = some (bytes "Failed to close library: Unknown error") := by
  decide

end Dylo
